import Mathlib

/-!
Verification of the ATAC-seq workflow driver (`pipelines/atacseq.py`).

The driver `process(args, prj, sample)` is a straight-line Python function that
emits a fixed sequence of actions: timestamps, executor calls
(`pipe.call_lock(cmd, target, lock_name, shell, nofail)`), disposal
registrations (`pipe.clean_add(path, conditional)`), two direct toolkit calls
(`tk.linkToTrackHub`, `tk.plotInsertSizesFit`), and one guarded local
`os.makedirs`.  Its only branches are on `sample.unmappedBam` being a list, on
`sample.paired`, on `args.trimmer`, and on `sample.tagmented`; its only
mutation of the sample descriptor is `sample.unmappedBam = sample.unmapped`
after the merge step.  We embed the driver shallowly as a pure function from
its inputs to the list of actions it performs, in source order, plus the final
sample descriptor.  Command builders from `toolkit` are embedded as
constructors recording exactly the arguments the driver passes them.
-/

/-- `sample.unmappedBam` in the Python source is dynamically either a single
path or a list of paths (the driver tests `type(sample.unmappedBam) == list`). -/
inductive BamInput where
  | one (path : String)
  | many (paths : List String)
deriving DecidableEq, Repr

structure SampleDirs where
  sampleRoot : String
  unmapped : String
  peaks : String
deriving DecidableEq, Repr

/-- The sample descriptor fields read or written by `process`
(`pipelines/atacseq.py`). -/
structure Sample where
  name : String
  unmappedBam : BamInput
  unmapped : String
  fastq : String
  fastq1 : String
  fastq2 : String
  fastqUnpaired : String
  trimmed : String
  trimmed1 : String
  trimmed2 : String
  trimmed1Unpaired : String
  trimmed2Unpaired : String
  trimlog : String
  mapped : String
  alnRates : String
  alnMetrics : String
  filtered : String
  dupsMetrics : String
  filteredshifted : String
  bigwig : String
  trackURL : String
  trackColour : String
  insertplot : String
  insertdata : String
  coverage : String
  qc : String
  qcPlot : String
  peaks : String
  frip : String
  paired : Bool
  tagmented : Bool
  genome : String
  dirs : SampleDirs
deriving DecidableEq, Repr

structure ProjectDirs where
  html : String
  root : String

/-- The project configuration fields read by `process`.  The per-genome config
tables `prj.config["annotations"][...]` are embedded as functions from the
genome identifier. -/
structure Project where
  name : String
  url : String
  adapters : String
  genomes : String → String
  chrsizes : String → String
  genomewindows : String → String
  dirs : ProjectDirs

/-- The run options read by `process` and `main`. -/
structure Args where
  trimmer : String
  cpus : Nat
  quality : Nat
  maxinsert : Nat
  dry_run : Bool

/-- `os.path.join` for the two-argument relative-path uses in the driver. -/
def pathJoin (a b : String) : String := a ++ "/" ++ b

/-- Command descriptions built by the `toolkit` command builders, recording the
arguments the driver passes at each call site (keyword arguments in call-site
order).  The builders themselves are external collaborators; the driver hands
the resulting command to the executor. -/
inductive Cmd where
  | mergeBams (inputBams : List String) (outputBam : String)
  | fastqc (inputBam : BamInput) (outputDir : String) (sampleName : String)
  | bam2fastq (inputBam : BamInput) (outputFastq : String)
      (outputFastq2 : Option String) (unpairedFastq : Option String)
  | trimmomatic (inputFastq1 : String) (inputFastq2 : Option String)
      (outputFastq1 : String) (outputFastq1unpaired : Option String)
      (outputFastq2 : Option String) (outputFastq2unpaired : Option String)
      (cpus : Nat) (adapters : String) (log : String)
  | skewer (inputFastq1 : String) (inputFastq2 : Option String)
      ( outputPrefix : String) (outputFastq1 : String)
      (outputFastq2 : Option String) (trimLog : String)
      (cpus : Nat) (adapters : String)
  | bowtie2Map (inputFastq1 : String) (inputFastq2 : Option String)
      (outputBam : String) (log : String) (metrics : String)
      (genomeIndex : String) (maxInsert : Nat) (cpus : Nat)
  | filterReads (inputBam : String) (outputBam : String) (metricsFile : String)
      (paired : Bool) (cpus : Nat) (Q : Nat)
  | shiftReads (inputBam : String) (genome : String) (outputBam : String)
  | indexBam (inputBam : String)
  | bamToBigWig (inputBam : String) (outputBigWig : String)
      (genomeSizes : String) (genome : String) (tagmented : Bool) (normalize : Bool)
  | addTrackToHub (sampleName : String) (trackURL : String)
      (trackHub : String) (colour : String)
  | genomeWideCoverage (inputBam : String) (genomeWindows : String) (output : String)
  | peakTools (inputBam : String) (output : String) (plot : String) (cpus : Nat)
  | macs2CallPeaksATACSeq (treatmentBam : String) (outputDir : String)
      (sampleName : String) (genome : String)
  | calculateFRiP (inputBam : String) (inputBed : String) (output : String)
deriving DecidableEq, Repr

/-- One action performed by the driver, in source order:
`timestamp msg` is `pipe.timestamp(msg)`;
`callLock cmd target lockName shell nofail` is `pipe.call_lock(...)`;
`cleanAdd path conditional` is `pipe.clean_add(...)`;
`linkToTrackHub` and `plotInsertSizesFit` are the two direct toolkit calls made
outside the executor; `makedirsIfMissing dir` is the guarded `os.makedirs`
before peak calling. -/
inductive Event where
  | timestamp (msg : String)
  | callLock (cmd : Cmd) (target : Option String) (lockName : Option String)
      (shell : Bool) (nofail : Bool)
  | cleanAdd (path : String) (conditional : Bool)
  | linkToTrackHub (trackHubURL : String) (fileName : String) (genome : String)
  | plotInsertSizesFit (bam : String) (plot : String) (outputCSV : String)
  | makedirsIfMissing (dir : String)
deriving DecidableEq, Repr

/-- Lines 77-85: merge Bam files when the raw input is a list of files. -/
def mergeTrace (s : Sample) : List Event :=
  match s.unmappedBam with
  | .many bams =>
      [Event.timestamp "Merging bam files from replicates",
       Event.callLock (Cmd.mergeBams bams s.unmapped) (some s.unmapped) none true false]
  | .one _ => []

/-- Line 85: `sample.unmappedBam = sample.unmapped`, executed only in the merge
branch.  This is the only assignment to the sample descriptor in `process`. -/
def afterMerge (s : Sample) : Sample :=
  match s.unmappedBam with
  | .many _ => { s with unmappedBam := BamInput.one s.unmapped }
  | .one _ => s

/-- Lines 87-113: Fastqc, bam-to-fastq conversion with its disposal
registrations, and the trimming timestamp (emitted before the trimmer branch). -/
def preTrimTrace (s : Sample) : List Event :=
  [Event.timestamp "Measuring sample quality with Fastqc",
   Event.callLock (Cmd.fastqc s.unmappedBam s.dirs.sampleRoot s.name)
     (some (pathJoin s.dirs.sampleRoot (s.name ++ "_fastqc.zip"))) none true false,
   Event.timestamp "Converting to Fastq format",
   Event.callLock
     (Cmd.bam2fastq s.unmappedBam
        (if s.paired then s.fastq1 else s.fastq)
        (if s.paired then some s.fastq2 else none)
        (if s.paired then some s.fastqUnpaired else none))
     (some (if s.paired then s.fastq1 else s.fastq)) none true false]
  ++ (if !s.paired then [Event.cleanAdd s.fastq true] else [])
  ++ (if s.paired then
        [Event.cleanAdd s.fastq1 true, Event.cleanAdd s.fastq2 true,
         Event.cleanAdd s.fastqUnpaired true]
      else [])
  ++ [Event.timestamp "Trimming adapters from sample"]

/-- Lines 114-151: the trimmer branch (`trimmomatic` / `skewer` / neither). -/
def trimTrace (args : Args) (prj : Project) (s : Sample) : List Event :=
  if args.trimmer = "trimmomatic" then
    [Event.callLock
       (Cmd.trimmomatic (if s.paired then s.fastq1 else s.fastq)
          (if s.paired then some s.fastq2 else none)
          (if s.paired then s.trimmed1 else s.trimmed)
          (if s.paired then some s.trimmed1Unpaired else none)
          (if s.paired then some s.trimmed2 else none)
          (if s.paired then some s.trimmed2Unpaired else none)
          args.cpus prj.adapters s.trimlog)
       (some (if s.paired then s.trimmed1 else s.trimmed)) none true false]
    ++ (if !s.paired then [Event.cleanAdd s.trimmed true]
        else
          [Event.cleanAdd s.trimmed1 true, Event.cleanAdd s.trimmed1Unpaired true,
           Event.cleanAdd s.trimmed2 true, Event.cleanAdd s.trimmed2Unpaired true])
  else if args.trimmer = "skewer" then
    [Event.callLock
       (Cmd.skewer (if s.paired then s.fastq1 else s.fastq)
          (if s.paired then some s.fastq2 else none)
          (pathJoin s.dirs.unmapped s.name)
          (if s.paired then s.trimmed1 else s.trimmed)
          (if s.paired then some s.trimmed2 else none)
          s.trimlog args.cpus prj.adapters)
       (some (if s.paired then s.trimmed1 else s.trimmed)) none true false]
    ++ (if !s.paired then [Event.cleanAdd s.trimmed true]
        else [Event.cleanAdd s.trimmed1 true, Event.cleanAdd s.trimmed2 true])
  else []

/-- Lines 153-286: mapping, filtering, the tagmented-only shift, indexing,
track generation and hub registration/linking, the insert-size plot,
genome-wide coverage, signal/noise assessment, peak calling, and FRiP. -/
def postTrimTrace (args : Args) (prj : Project) (s : Sample) : List Event :=
  [Event.timestamp "Mapping reads with Bowtie2",
   Event.callLock
     (Cmd.bowtie2Map (if s.paired then s.trimmed1 else s.trimmed)
        (if s.paired then some s.trimmed2 else none)
        s.mapped s.alnRates s.alnMetrics (prj.genomes s.genome) args.maxinsert args.cpus)
     (some s.mapped) none true false,
   Event.cleanAdd s.mapped true,
   Event.timestamp "Filtering reads for quality",
   Event.callLock
     (Cmd.filterReads s.mapped s.filtered s.dupsMetrics s.paired args.cpus args.quality)
     (some s.filtered) none true false]
  ++ (if s.tagmented then
        [Event.timestamp "Shifting reads of tagmented sample",
         Event.callLock (Cmd.shiftReads s.filtered s.genome s.filteredshifted)
           (some s.filteredshifted) none true false]
      else [])
  ++ [Event.timestamp "Indexing bamfiles with samtools",
      Event.callLock (Cmd.indexBam s.mapped) (some (s.mapped ++ ".bai")) none true false,
      Event.callLock (Cmd.indexBam s.filtered) (some (s.filtered ++ ".bai")) none true false]
  ++ (if s.tagmented then
        [Event.callLock (Cmd.indexBam s.filteredshifted)
           (some (s.filteredshifted ++ ".bai")) none true false]
      else [])
  ++ [Event.timestamp "Making bigWig tracks from bam file",
      Event.callLock
        (Cmd.bamToBigWig s.filteredshifted s.bigwig (prj.chrsizes s.genome)
           s.genome false true)
        (some s.bigwig) none true false,
      Event.callLock
        (Cmd.addTrackToHub s.name s.trackURL
           (pathJoin prj.dirs.html ("trackHub_" ++ s.genome ++ ".txt")) s.trackColour)
        none (some (s.name ++ "addToTrackHub")) true false,
      Event.linkToTrackHub
        (prj.url ++ "/" ++ prj.name ++ "/" ++ ("trackHub_" ++ s.genome ++ ".txt"))
        (pathJoin prj.dirs.root ("ucsc_tracks_" ++ s.genome ++ ".html")) s.genome,
      Event.timestamp "Plotting insert size distribution",
      Event.plotInsertSizesFit s.filtered s.insertplot s.insertdata,
      Event.timestamp "Calculating genome-wide coverage",
      Event.callLock
        (Cmd.genomeWideCoverage s.filteredshifted (prj.genomewindows s.genome) s.coverage)
        (some s.coverage) none true false,
      Event.timestamp "Assessing signal/noise in sample",
      Event.callLock (Cmd.peakTools s.filteredshifted s.qc s.qcPlot args.cpus)
        (some s.qcPlot) none true true,
      Event.timestamp "Calling peaks with MACS2",
      Event.makedirsIfMissing s.dirs.peaks,
      Event.callLock
        (Cmd.macs2CallPeaksATACSeq s.filteredshifted s.dirs.peaks s.name s.genome)
        (some s.peaks) none true false,
      Event.timestamp "Calculating fraction of reads in peaks (FRiP)",
      Event.callLock (Cmd.calculateFRiP s.filteredshifted s.peaks s.frip)
        (some s.frip) none true false]

/-- The full ordered action sequence of `process(args, prj, sample)`
(`pipelines/atacseq.py` lines 65-288).  After the merge branch the driver
reads only the substituted sample descriptor `afterMerge s0`. -/
def processTrace (args : Args) (prj : Project) (s0 : Sample) : List Event :=
  mergeTrace s0
    ++ (preTrimTrace (afterMerge s0)
        ++ (trimTrace args prj (afterMerge s0) ++ postTrimTrace args prj (afterMerge s0)))

/-- The sample descriptor as it stands when `process` returns. -/
def processSample (_ : Args) (_ : Project) (s0 : Sample) : Sample :=
  afterMerge s0

/-- Modelled from the spec: the Step Executor (`pypiper.call_lock`, whose code
is not under `src/`) skips a step, performing no external invocation, exactly
when the step's declared target artifact already exists (`ex` says which paths
exist); a `call_lock` with no declared target has no completion witness ("at
least one primary artifact used as the completion witness"), so its command is
invoked on every run.  The two direct toolkit calls (`linkToTrackHub`,
`plotInsertSizesFit`) bypass the executor and always execute.  Timestamps,
disposal registrations, and the guarded local `makedirs` are not external
invocations. -/
def Event.invokes (ex : String → Bool) : Event → Bool
  | .callLock _ (some t) _ _ _ => !ex t
  | .callLock _ none _ _ _ => true
  | .linkToTrackHub _ _ _ => true
  | .plotInsertSizesFit _ _ _ => true
  | _ => false

/-- The external invocations a run of the given action sequence performs when
`ex` describes which artifacts already exist on disk. -/
def invocations (ex : String → Bool) (tr : List Event) : List Event :=
  tr.filter (Event.invokes ex)

/-- An executor step whose failure aborts the workflow: a `call_lock` with
`nofail` false. -/
def Event.isFatalStep : Event → Bool
  | .callLock _ _ _ _ false => true
  | _ => false

/-- Modelled from the spec: an event aborts the remaining sequence exactly when
it is an executor step that actually runs (its target is absent or
undeclared), its command fails, and it is not `nofail`; `nofail` failures are
logged and the workflow continues, and the direct toolkit calls (the
insert-size plot and the track-hub link) are best-effort and never abort. -/
def Event.aborts (ex : String → Bool) (fails : Event → Bool) : Event → Bool
  | e@(.callLock _ (some t) _ _ nf) => !ex t && fails e && !nf
  | e@(.callLock _ none _ _ nf) => fails e && !nf
  | _ => false

/-- Modelled from the spec: the prefix of the action sequence the workflow
actually reaches, given which artifacts exist (`ex`) and which events fail
when they run (`fails`); the first aborting event is reached and then the
remaining sequence is abandoned. -/
def execEvents (ex : String → Bool) (fails : Event → Bool) : List Event → List Event
  | [] => []
  | e :: rest =>
      if Event.aborts ex fails e then [e] else e :: execEvents ex fails rest

/-- The three ways a run of the pipeline process can end. -/
inductive RunOutcome where
  | success
  | stepFailure
  | interrupted
deriving DecidableEq

/-- Modelled from the spec: the process exit code for each outcome.  On full
success `main` reaches `sys.exit(0)` (`atacseq.py` lines 49 and 294).  On an
unrecoverable step failure the executor aborts the workflow by raising
("the workflow must abort"); `atacseq.py` catches only `KeyboardInterrupt`
(line 295), so the abort escapes to the interpreter, which terminates with
status 1.  A user interruption (`KeyboardInterrupt`) is caught and exits via
`sys.exit(1)` (line 297). -/
def exitCode : RunOutcome → Nat
  | .success => 0
  | .stepFailure => 1
  | .interrupted => 1

/-- The declared target artifact of an executor step, if any. -/
def Event.target? : Event → Option String
  | .callLock _ t _ _ _ => t
  | _ => none

/-- Is this a disposal registration with `conditional=True`? -/
def Event.isCondCleanAdd : Event → Bool
  | .cleanAdd _ c => c
  | _ => false

/-- The registered path of a disposal registration, if any. -/
def Event.cleanAddPath? : Event → Option String
  | .cleanAdd p _ => some p
  | _ => none

/-- The step-bracketing log message of a timestamp event, if any. -/
def Event.stepName? : Event → Option String
  | .timestamp m => some m
  | _ => none

/-- The ordered list of step names a run logs (its `pipe.timestamp` markers). -/
def stepNames (tr : List Event) : List String :=
  tr.filterMap Event.stepName?

/-- The input BAM consumed by the five steps downstream of quality filtering
named by the spec: signal-track generation, genome-wide coverage, signal/noise
assessment, peak calling, and read-in-peak fraction. -/
def Cmd.downstreamBam? : Cmd → Option String
  | .bamToBigWig i _ _ _ _ _ => some i
  | .genomeWideCoverage i _ _ => some i
  | .peakTools i _ _ _ => some i
  | .macs2CallPeaksATACSeq i _ _ _ => some i
  | .calculateFRiP i _ _ => some i
  | _ => none

def Event.downstreamBam? : Event → Option String
  | .callLock c _ _ _ _ => c.downstreamBam?
  | _ => none

/-- The read-path inputs of the alignment step (`tk.bowtie2Map`), if any. -/
def Event.alignInputs? : Event → Option (String × Option String)
  | .callLock (.bowtie2Map i1 i2 _ _ _ _ _ _) _ _ _ _ => some (i1, i2)
  | _ => none

/-- Is this the peak-calling executor step (`tk.macs2CallPeaksATACSeq`)? -/
def Event.isPeakCall : Event → Bool
  | .callLock (.macs2CallPeaksATACSeq _ _ _ _) _ _ _ _ => true
  | _ => false

/-- Is this the merge executor step (`tk.mergeBams`)? -/
def Event.isMergeStep : Event → Bool
  | .callLock (.mergeBams _ _) _ _ _ _ => true
  | _ => false

/-- Is this a trimming command invocation (either trimmer)? -/
def Event.isTrimCmd : Event → Bool
  | .callLock (.trimmomatic _ _ _ _ _ _ _ _ _) _ _ _ _ => true
  | .callLock (.skewer _ _ _ _ _ _ _ _) _ _ _ _ => true
  | _ => false

/-- Is this a disposal registration (either trimmer branch registers only
these besides its command)? -/
def Event.isCleanAdd : Event → Bool
  | .cleanAdd _ _ => true
  | _ => false

/-- An event belonging to the trimming step: the trim command itself or one of
its disposal registrations. -/
def Event.isTrimEvent (e : Event) : Bool :=
  e.isTrimCmd || e.isCleanAdd

/-- The input BAM passed to the quality-report step (`tk.fastqc`), if any. -/
def Event.fastqcInput? : Event → Option BamInput
  | .callLock (.fastqc i _ _) _ _ _ _ => some i
  | _ => none

/-- The input BAM passed to the format-conversion step (`tk.bam2fastq`), if any. -/
def Event.bam2fastqInput? : Event → Option BamInput
  | .callLock (.bam2fastq i _ _ _) _ _ _ _ => some i
  | _ => none

/-- Step order asserted by the specification's ordering contract, written from
the spec's words for comparison with the order computed from the source:
"merge (optional) -> quality report -> format conversion -> trim -> align ->
quality-filter -> shift (optional) -> index -> signal-track generation ->
fragment-size diagnostic -> peak calling -> read-in-peak fraction", rendered
with the driver's own step-bracketing log messages. -/
def specClaimedStepOrder (multiInput tagm : Bool) : List String :=
  (if multiInput then ["Merging bam files from replicates"] else [])
  ++ ["Measuring sample quality with Fastqc",
      "Converting to Fastq format",
      "Trimming adapters from sample",
      "Mapping reads with Bowtie2",
      "Filtering reads for quality"]
  ++ (if tagm then ["Shifting reads of tagmented sample"] else [])
  ++ ["Indexing bamfiles with samtools",
      "Making bigWig tracks from bam file",
      "Plotting insert size distribution",
      "Calling peaks with MACS2",
      "Calculating fraction of reads in peaks (FRiP)"]

/-- A paired-end, tagmented sample with two raw input files, with pairwise
distinct artifact paths. -/
def mkSample : Sample :=
  { name := "s"
    unmappedBam := BamInput.many ["u1.bam", "u2.bam"]
    unmapped := "merged.bam"
    fastq := "se.fastq"
    fastq1 := "r1.fastq"
    fastq2 := "r2.fastq"
    fastqUnpaired := "up.fastq"
    trimmed := "t.fastq"
    trimmed1 := "t1.fastq"
    trimmed2 := "t2.fastq"
    trimmed1Unpaired := "t1u.fastq"
    trimmed2Unpaired := "t2u.fastq"
    trimlog := "trim.log"
    mapped := "m.bam"
    alnRates := "aln.txt"
    alnMetrics := "aln.met"
    filtered := "f.bam"
    dupsMetrics := "dups.txt"
    filteredshifted := "fs.bam"
    bigwig := "t.bigwig"
    trackURL := "turl"
    trackColour := "col"
    insertplot := "ins.pdf"
    insertdata := "ins.csv"
    coverage := "cov.bed"
    qc := "qc.tsv"
    qcPlot := "qc.pdf"
    peaks := "pk.narrowPeak"
    frip := "frip.txt"
    paired := true
    tagmented := true
    genome := "hg19"
    dirs := { sampleRoot := "root", unmapped := "udir", peaks := "pdir" } }

/-- `mkSample` with a single raw input file and the tagmented flag cleared. -/
def sampleNoTag : Sample :=
  { mkSample with tagmented := false, unmappedBam := BamInput.one "u.bam" }

/-- `mkSample` with a single raw input file. -/
def sampleOne : Sample :=
  { mkSample with unmappedBam := BamInput.one "u.bam" }

def mkArgs : Args :=
  { trimmer := "trimmomatic", cpus := 4, quality := 30, maxinsert := 2000, dry_run := false }

/-- `mkArgs` with a trimmer value that names neither supported tool. -/
def argsOther : Args :=
  { mkArgs with trimmer := "cutadapt" }

def mkPrj : Project :=
  { name := "prj"
    url := "http://u"
    adapters := "ad.fa"
    genomes := fun _ => "gidx"
    chrsizes := fun _ => "cs.txt"
    genomewindows := fun _ => "gw.bed"
    dirs := { html := "html", root := "proot" } }

/-- A forced failure of exactly the fragment-size diagnostic action. -/
def failsPlot : Event → Bool
  | .plotInsertSizesFit _ _ _ => true
  | _ => false

/-- If no fatal executor step in the sequence fails, execution reaches every
event: `nofail` steps and best-effort direct calls may fail freely. -/
theorem execEvents_eq_of_no_fatal_failure (ex : String → Bool) (fails : Event → Bool)
    (l : List Event) (h : ∀ e ∈ l, Event.isFatalStep e = true → fails e = false) :
    execEvents ex fails l = l := by
  induction l with
  | nil => rfl
  | cons e rest ih =>
      have he : Event.aborts ex fails e = false := by
        rcases e with m | ⟨c, t, ln, sh, nf⟩ | p | a | b | d
        · rfl
        · rcases t with _ | t
          · cases nf
            · have := h _ (List.mem_cons_self _ _) rfl
              simp [Event.aborts, this]
            · simp [Event.aborts]
          · cases nf
            · have := h _ (List.mem_cons_self _ _) rfl
              simp [Event.aborts, this]
            · simp [Event.aborts]
        · rfl
        · rfl
        · rfl
        · rfl
      have hstep : execEvents ex fails (e :: rest) = e :: execEvents ex fails rest := by
        rw [execEvents, he]; rfl
      rw [hstep]
      exact congrArg (e :: ·) (ih fun e' he' => h e' (List.mem_cons_of_mem _ he'))

theorem mergeTrace_alignInputs (s : Sample) :
    (mergeTrace s).filterMap Event.alignInputs? = [] := by
  cases h : s.unmappedBam <;> simp [mergeTrace, h, Event.alignInputs?]

theorem preTrimTrace_alignInputs (s : Sample) :
    (preTrimTrace s).filterMap Event.alignInputs? = [] := by
  cases hp : s.paired <;> simp [preTrimTrace, hp, Event.alignInputs?]

theorem trimTrace_alignInputs (a : Args) (prj : Project) (s : Sample) :
    (trimTrace a prj s).filterMap Event.alignInputs? = [] := by
  unfold trimTrace
  by_cases h1 : a.trimmer = "trimmomatic"
  · cases hp : s.paired <;> simp [h1, hp, Event.alignInputs?]
  · by_cases h2 : a.trimmer = "skewer"
    · cases hp : s.paired <;> simp [h1, h2, hp, Event.alignInputs?]
    · simp [h1, h2]

theorem postTrimTrace_alignInputs (a : Args) (prj : Project) (s : Sample) :
    (postTrimTrace a prj s).filterMap Event.alignInputs? =
      [((if s.paired then s.trimmed1 else s.trimmed),
        (if s.paired then some s.trimmed2 else none))] := by
  cases ht : s.tagmented <;> simp [postTrimTrace, ht, Event.alignInputs?]

theorem processTrace_alignInputs (a : Args) (prj : Project) (s0 : Sample) :
    (processTrace a prj s0).filterMap Event.alignInputs? =
      [((if (afterMerge s0).paired then (afterMerge s0).trimmed1 else (afterMerge s0).trimmed),
        (if (afterMerge s0).paired then some (afterMerge s0).trimmed2 else none))] := by
  simp [processTrace, List.filterMap_append, mergeTrace_alignInputs,
    preTrimTrace_alignInputs, trimTrace_alignInputs, postTrimTrace_alignInputs]

theorem mergeTrace_invocations (s : Sample) :
    invocations (fun _ => true) (mergeTrace s) = [] := by
  cases h : s.unmappedBam <;> simp [mergeTrace, h, invocations, Event.invokes]

theorem preTrimTrace_invocations (s : Sample) :
    invocations (fun _ => true) (preTrimTrace s) = [] := by
  cases hp : s.paired <;> simp [preTrimTrace, hp, invocations, Event.invokes]

theorem trimTrace_invocations (a : Args) (prj : Project) (s : Sample) :
    invocations (fun _ => true) (trimTrace a prj s) = [] := by
  unfold trimTrace
  by_cases h1 : a.trimmer = "trimmomatic"
  · cases hp : s.paired <;> simp [h1, hp, invocations, Event.invokes]
  · by_cases h2 : a.trimmer = "skewer"
    · cases hp : s.paired <;> simp [h1, h2, hp, invocations, Event.invokes]
    · simp [h1, h2, invocations]

theorem postTrimTrace_invocations (a : Args) (prj : Project) (s : Sample) :
    invocations (fun _ => true) (postTrimTrace a prj s) =
      [Event.callLock
         (Cmd.addTrackToHub s.name s.trackURL
            (pathJoin prj.dirs.html ("trackHub_" ++ s.genome ++ ".txt")) s.trackColour)
         none (some (s.name ++ "addToTrackHub")) true false,
       Event.linkToTrackHub
         (prj.url ++ "/" ++ prj.name ++ "/" ++ ("trackHub_" ++ s.genome ++ ".txt"))
         (pathJoin prj.dirs.root ("ucsc_tracks_" ++ s.genome ++ ".html")) s.genome,
       Event.plotInsertSizesFit s.filtered s.insertplot s.insertdata] := by
  cases ht : s.tagmented <;> simp [postTrimTrace, ht, invocations, Event.invokes]

theorem invocations_append (ex : String → Bool) (l1 l2 : List Event) :
    invocations ex (l1 ++ l2) = invocations ex l1 ++ invocations ex l2 :=
  List.filter_append _ _

/-- Claim C1 (code_bug witness): at the failing input, a sample with the
tagmented flag false, all five steps downstream of quality filtering
(signal-track generation, genome-wide coverage, signal/noise assessment, peak
calling, read-in-peak fraction) consume `sample.filteredshifted` as their input
BAM, which differs from `sample.filtered` and is declared as the target of no
step of the run: the shift step that would produce it is gated on the
tagmented flag. -/
theorem nonTagmented_downstream_consumes_unproduced_filteredshifted :
    sampleNoTag.tagmented = false
  ∧ (processTrace mkArgs mkPrj sampleNoTag).filterMap Event.downstreamBam?
      = [sampleNoTag.filteredshifted, sampleNoTag.filteredshifted,
         sampleNoTag.filteredshifted, sampleNoTag.filteredshifted,
         sampleNoTag.filteredshifted]
  ∧ sampleNoTag.filteredshifted ≠ sampleNoTag.filtered
  ∧ sampleNoTag.filteredshifted
      ∉ (processTrace mkArgs mkPrj sampleNoTag).filterMap Event.target? := by
  decide

/-- Claim C2 (counterexample): on a second run over a sample whose declared
output artifacts all exist, the workflow does not perform zero external
invocations. -/
theorem second_run_invocations_nonempty_cex :
    invocations (fun _ => true) (processTrace mkArgs mkPrj mkSample) ≠ [] := by
  decide

/-- Claim C2 (amended): when every declared output artifact already exists,
every executor step with a declared target is skipped, and the run performs
exactly three external invocations: track-hub registration (whose `call_lock`
declares only a lock name and no output artifact), track-hub linking, and the
insert-size plot (both direct toolkit calls outside the executor). -/
theorem second_run_invocations_exactly_three (args : Args) (prj : Project) (s0 : Sample) :
    invocations (fun _ => true) (processTrace args prj s0) =
      [Event.callLock
         (Cmd.addTrackToHub s0.name s0.trackURL
            (pathJoin prj.dirs.html ("trackHub_" ++ s0.genome ++ ".txt")) s0.trackColour)
         none (some (s0.name ++ "addToTrackHub")) true false,
       Event.linkToTrackHub
         (prj.url ++ "/" ++ prj.name ++ "/" ++ ("trackHub_" ++ s0.genome ++ ".txt"))
         (pathJoin prj.dirs.root ("ucsc_tracks_" ++ s0.genome ++ ".html")) s0.genome,
       Event.plotInsertSizesFit s0.filtered s0.insertplot s0.insertdata] := by
  have h : invocations (fun _ => true) (processTrace args prj s0) =
      invocations (fun _ => true) (postTrimTrace args prj (afterMerge s0)) := by
    simp [processTrace, invocations_append, mergeTrace_invocations,
      preTrimTrace_invocations, trimTrace_invocations]
  rw [h, postTrimTrace_invocations]
  rcases hb : s0.unmappedBam with p | bams <;> simp [afterMerge, hb]

/-- Claim C3 (counterexample): for a paired-end, tagmented sample with two raw
input files and the trimming tool set to trimmomatic, the number of artifacts
registered for conditional disposal is not 9. -/
theorem conditional_disposals_ne_nine_cex :
    (processTrace mkArgs mkPrj mkSample).countP Event.isCondCleanAdd ≠ 9 := by
  decide

/-- Claim C3 (amended): for a paired-end, tagmented sample with two raw input
files and the trimming tool set to trimmomatic, the driver registers exactly 8
intermediate artifacts for conditional disposal: the three fastq conversion
outputs, the four trimmomatic outputs, and the mapped BAM. -/
theorem conditional_disposals_eq_eight (args : Args) (prj : Project) (s0 : Sample)
    (b1 b2 : String) (hb : s0.unmappedBam = BamInput.many [b1, b2])
    (hp : s0.paired = true) (ht : s0.tagmented = true)
    (htr : args.trimmer = "trimmomatic") :
    (processTrace args prj s0).countP Event.isCondCleanAdd = 8 := by
  simp [processTrace, afterMerge, hb, hp, ht, htr, mergeTrace, preTrimTrace, trimTrace,
    postTrimTrace, Event.isCondCleanAdd, List.countP_append, List.countP_cons]

/-- Witness for the amended claim C3 at a concrete paired-end, tagmented,
two-replicate sample processed with trimmomatic. -/
theorem conditional_disposals_eq_eight_witness :
    (processTrace mkArgs mkPrj mkSample).countP Event.isCondCleanAdd = 8 :=
  conditional_disposals_eq_eight mkArgs mkPrj mkSample "u1.bam" "u2.bam" rfl rfl rfl rfl

theorem processTrace_any_isPeakCall (args : Args) (prj : Project) (s0 : Sample) :
    (processTrace args prj s0).any Event.isPeakCall = true := by
  have h : (postTrimTrace args prj (afterMerge s0)).any Event.isPeakCall = true := by
    cases ht : (afterMerge s0).tagmented <;> simp [postTrimTrace, ht, Event.isPeakCall]
  simp [processTrace, List.any_append, h]

/-- Claim C4 (confirmed): a failure of the fragment-size diagnostic step (the
insert-size plot, a best-effort direct toolkit call that never aborts) does not
abort the workflow: as long as no fatal executor step (`nofail` false) fails,
the run reaches the peak-calling step, whatever the diagnostic does. -/
theorem diagnostic_failure_never_blocks_peak_calling (args : Args) (prj : Project)
    (s0 : Sample) (ex : String → Bool) (fails : Event → Bool)
    (h : ∀ e ∈ processTrace args prj s0, Event.isFatalStep e = true → fails e = false) :
    (execEvents ex fails (processTrace args prj s0)).any Event.isPeakCall = true := by
  rw [execEvents_eq_of_no_fatal_failure ex fails _ h]
  exact processTrace_any_isPeakCall args prj s0

/-- Witness for claim C4: with a forced failure of exactly the insert-size
plot (`failsPlot`) and nothing on disk, the run still reaches peak calling. -/
theorem diagnostic_failure_never_blocks_peak_calling_witness :
    (execEvents (fun _ => false) failsPlot (processTrace mkArgs mkPrj mkSample)).any
        Event.isPeakCall = true :=
  diagnostic_failure_never_blocks_peak_calling mkArgs mkPrj mkSample (fun _ => false)
    failsPlot (by decide)

theorem stepNames_append (l1 l2 : List Event) :
    stepNames (l1 ++ l2) = stepNames l1 ++ stepNames l2 :=
  List.filterMap_append _ _ _

theorem mergeTrace_stepNames (s : Sample) :
    stepNames (mergeTrace s) =
      match s.unmappedBam with
      | BamInput.many _ => ["Merging bam files from replicates"]
      | BamInput.one _ => [] := by
  cases h : s.unmappedBam <;> simp [mergeTrace, stepNames, h, Event.stepName?]

theorem preTrimTrace_stepNames (s : Sample) :
    stepNames (preTrimTrace s) =
      ["Measuring sample quality with Fastqc", "Converting to Fastq format",
       "Trimming adapters from sample"] := by
  cases hp : s.paired <;> simp [preTrimTrace, stepNames, hp, Event.stepName?]

theorem trimTrace_stepNames (a : Args) (prj : Project) (s : Sample) :
    stepNames (trimTrace a prj s) = [] := by
  unfold trimTrace
  by_cases h1 : a.trimmer = "trimmomatic"
  · cases hp : s.paired <;> simp [h1, hp, stepNames, Event.stepName?]
  · by_cases h2 : a.trimmer = "skewer"
    · cases hp : s.paired <;> simp [h1, h2, hp, stepNames, Event.stepName?]
    · simp [h1, h2, stepNames]

theorem postTrimTrace_stepNames (a : Args) (prj : Project) (s : Sample) :
    stepNames (postTrimTrace a prj s) =
      ["Mapping reads with Bowtie2", "Filtering reads for quality"]
      ++ (if s.tagmented then ["Shifting reads of tagmented sample"] else [])
      ++ ["Indexing bamfiles with samtools", "Making bigWig tracks from bam file",
          "Plotting insert size distribution", "Calculating genome-wide coverage",
          "Assessing signal/noise in sample", "Calling peaks with MACS2",
          "Calculating fraction of reads in peaks (FRiP)"] := by
  cases ht : s.tagmented <;> simp [postTrimTrace, stepNames, ht, Event.stepName?]

/-- Claim C5 (counterexample): for a concrete two-replicate, paired-end,
tagmented sample processed with trimmomatic, the logged step order is not the
order the specification claims (merge, quality report, format conversion,
trim, align, quality-filter, shift, index, signal-track generation,
fragment-size diagnostic, peak calling, read-in-peak fraction with nothing
interleaved). -/
theorem step_order_ne_spec_claimed_cex :
    stepNames (processTrace mkArgs mkPrj mkSample) ≠ specClaimedStepOrder true true := by
  decide

/-- Claim C5 (amended): the steps run in exactly the claimed relative order,
but two further steps are interleaved between the fragment-size diagnostic and
peak calling: genome-wide coverage and signal/noise assessment. -/
theorem step_order_exact (args : Args) (prj : Project) (s0 : Sample) :
    stepNames (processTrace args prj s0) =
      (match s0.unmappedBam with
       | BamInput.many _ => ["Merging bam files from replicates"]
       | BamInput.one _ => [])
      ++ ["Measuring sample quality with Fastqc", "Converting to Fastq format",
          "Trimming adapters from sample", "Mapping reads with Bowtie2",
          "Filtering reads for quality"]
      ++ (if s0.tagmented then ["Shifting reads of tagmented sample"] else [])
      ++ ["Indexing bamfiles with samtools", "Making bigWig tracks from bam file",
          "Plotting insert size distribution", "Calculating genome-wide coverage",
          "Assessing signal/noise in sample", "Calling peaks with MACS2",
          "Calculating fraction of reads in peaks (FRiP)"] := by
  have hs : stepNames (processTrace args prj s0) =
      stepNames (mergeTrace s0) ++ (stepNames (preTrimTrace (afterMerge s0))
        ++ (stepNames (trimTrace args prj (afterMerge s0))
            ++ stepNames (postTrimTrace args prj (afterMerge s0)))) := by
    simp [processTrace, stepNames_append]
  rw [hs, mergeTrace_stepNames, preTrimTrace_stepNames, trimTrace_stepNames,
    postTrimTrace_stepNames]
  rcases hb : s0.unmappedBam with p | bams <;> simp [afterMerge, hb]

theorem trimTrace_all_isTrimEvent (a : Args) (prj : Project) (s : Sample) :
    (trimTrace a prj s).all Event.isTrimEvent = true := by
  unfold trimTrace
  by_cases h1 : a.trimmer = "trimmomatic"
  · cases hp : s.paired <;>
      simp [h1, hp, Event.isTrimEvent, Event.isTrimCmd, Event.isCleanAdd]
  · by_cases h2 : a.trimmer = "skewer"
    · cases hp : s.paired <;>
        simp [h1, h2, hp, Event.isTrimEvent, Event.isTrimCmd, Event.isCleanAdd]
    · simp [h1, h2]

/-- Claim C6 (confirmed): switching the trimming tool between trimmomatic and
skewer changes only the trim step's own events (its command invocation and its
disposal registrations): both runs decompose as the same prefix and the same
suffix around their respective trim segments, the trim segment consists only
of trim-command and disposal events for every trimmer value, and the alignment
step reads the same trimmed paths (`trimmed1`/`trimmed2` when paired,
`trimmed` otherwise) in both runs. -/
theorem trimmer_choice_is_branch_agnostic (args : Args) (prj : Project) (s0 : Sample) :
    (∃ pre post,
        processTrace { args with trimmer := "trimmomatic" } prj s0
          = pre ++ (trimTrace { args with trimmer := "trimmomatic" } prj (afterMerge s0) ++ post)
      ∧ processTrace { args with trimmer := "skewer" } prj s0
          = pre ++ (trimTrace { args with trimmer := "skewer" } prj (afterMerge s0) ++ post))
  ∧ (∀ t : String,
        (trimTrace { args with trimmer := t } prj (afterMerge s0)).all Event.isTrimEvent = true)
  ∧ (processTrace { args with trimmer := "trimmomatic" } prj s0).filterMap Event.alignInputs?
      = (processTrace { args with trimmer := "skewer" } prj s0).filterMap Event.alignInputs?
  ∧ (processTrace { args with trimmer := "trimmomatic" } prj s0).filterMap Event.alignInputs?
      = [((if s0.paired then s0.trimmed1 else s0.trimmed),
          (if s0.paired then some s0.trimmed2 else none))] := by
  refine ⟨⟨mergeTrace s0 ++ preTrimTrace (afterMerge s0),
          postTrimTrace { args with trimmer := "trimmomatic" } prj (afterMerge s0),
          ?_, ?_⟩,
        fun t => trimTrace_all_isTrimEvent { args with trimmer := t } prj (afterMerge s0),
        ?_, ?_⟩
  · simp [processTrace, List.append_assoc]
  · have hpost : postTrimTrace { args with trimmer := "skewer" } prj (afterMerge s0)
        = postTrimTrace { args with trimmer := "trimmomatic" } prj (afterMerge s0) := rfl
    simp [processTrace, hpost, List.append_assoc]
  · rw [processTrace_alignInputs, processTrace_alignInputs]
  · rw [processTrace_alignInputs]
    rcases hb : s0.unmappedBam with p | bams <;> simp [afterMerge, hb]

theorem preTrimTrace_countP_isMergeStep (s : Sample) :
    (preTrimTrace s).countP Event.isMergeStep = 0 := by
  cases hp : s.paired <;>
    simp [preTrimTrace, hp, Event.isMergeStep, List.countP_cons, List.countP_append]

theorem trimTrace_countP_isMergeStep (a : Args) (prj : Project) (s : Sample) :
    (trimTrace a prj s).countP Event.isMergeStep = 0 := by
  unfold trimTrace
  by_cases h1 : a.trimmer = "trimmomatic"
  · cases hp : s.paired <;>
      simp [h1, hp, Event.isMergeStep, List.countP_cons, List.countP_append]
  · by_cases h2 : a.trimmer = "skewer"
    · cases hp : s.paired <;>
        simp [h1, h2, hp, Event.isMergeStep, List.countP_cons, List.countP_append]
    · simp [h1, h2]

theorem postTrimTrace_countP_isMergeStep (a : Args) (prj : Project) (s : Sample) :
    (postTrimTrace a prj s).countP Event.isMergeStep = 0 := by
  cases ht : s.tagmented <;>
    simp [postTrimTrace, ht, Event.isMergeStep, List.countP_cons, List.countP_append]

theorem mergeTrace_fastqcInputs (s : Sample) :
    (mergeTrace s).filterMap Event.fastqcInput? = [] := by
  cases h : s.unmappedBam <;> simp [mergeTrace, h, Event.fastqcInput?]

theorem preTrimTrace_fastqcInputs (s : Sample) :
    (preTrimTrace s).filterMap Event.fastqcInput? = [s.unmappedBam] := by
  cases hp : s.paired <;> simp [preTrimTrace, hp, Event.fastqcInput?]

theorem trimTrace_fastqcInputs (a : Args) (prj : Project) (s : Sample) :
    (trimTrace a prj s).filterMap Event.fastqcInput? = [] := by
  unfold trimTrace
  by_cases h1 : a.trimmer = "trimmomatic"
  · cases hp : s.paired <;> simp [h1, hp, Event.fastqcInput?]
  · by_cases h2 : a.trimmer = "skewer"
    · cases hp : s.paired <;> simp [h1, h2, hp, Event.fastqcInput?]
    · simp [h1, h2]

theorem postTrimTrace_fastqcInputs (a : Args) (prj : Project) (s : Sample) :
    (postTrimTrace a prj s).filterMap Event.fastqcInput? = [] := by
  cases ht : s.tagmented <;> simp [postTrimTrace, ht, Event.fastqcInput?]

theorem mergeTrace_bam2fastqInputs (s : Sample) :
    (mergeTrace s).filterMap Event.bam2fastqInput? = [] := by
  cases h : s.unmappedBam <;> simp [mergeTrace, h, Event.bam2fastqInput?]

theorem preTrimTrace_bam2fastqInputs (s : Sample) :
    (preTrimTrace s).filterMap Event.bam2fastqInput? = [s.unmappedBam] := by
  cases hp : s.paired <;> simp [preTrimTrace, hp, Event.bam2fastqInput?]

theorem trimTrace_bam2fastqInputs (a : Args) (prj : Project) (s : Sample) :
    (trimTrace a prj s).filterMap Event.bam2fastqInput? = [] := by
  unfold trimTrace
  by_cases h1 : a.trimmer = "trimmomatic"
  · cases hp : s.paired <;> simp [h1, hp, Event.bam2fastqInput?]
  · by_cases h2 : a.trimmer = "skewer"
    · cases hp : s.paired <;> simp [h1, h2, hp, Event.bam2fastqInput?]
    · simp [h1, h2]

theorem postTrimTrace_bam2fastqInputs (a : Args) (prj : Project) (s : Sample) :
    (postTrimTrace a prj s).filterMap Event.bam2fastqInput? = [] := by
  cases ht : s.tagmented <;> simp [postTrimTrace, ht, Event.bam2fastqInput?]

/-- Claim C7 (confirmed): when the raw input is a list of files, the merge
step runs first (it is the head of the action sequence and no merge step
occurs later), and after it the sample descriptor's `unmappedBam` is the merge
output `sample.unmapped`, which is exactly the input consumed by the
quality-report (`fastqc`) and format-conversion (`bam2fastq`) steps; when the
raw input is a single file, no merge step runs and the descriptor is
untouched. -/
theorem merge_runs_first_and_substitutes_input (args : Args) (prj : Project) (s0 : Sample) :
    (∀ bams, s0.unmappedBam = BamInput.many bams →
        (∃ rest,
            processTrace args prj s0
              = Event.timestamp "Merging bam files from replicates"
                :: Event.callLock (Cmd.mergeBams bams s0.unmapped)
                     (some s0.unmapped) none true false
                :: rest
          ∧ rest.countP Event.isMergeStep = 0)
      ∧ (processSample args prj s0).unmappedBam = BamInput.one s0.unmapped
      ∧ (processTrace args prj s0).filterMap Event.fastqcInput? = [BamInput.one s0.unmapped]
      ∧ (processTrace args prj s0).filterMap Event.bam2fastqInput?
          = [BamInput.one s0.unmapped])
  ∧ (∀ p, s0.unmappedBam = BamInput.one p →
        (processTrace args prj s0).countP Event.isMergeStep = 0
      ∧ processSample args prj s0 = s0) := by
  constructor
  · intro bams hb
    refine ⟨⟨preTrimTrace (afterMerge s0)
              ++ (trimTrace args prj (afterMerge s0)
                  ++ postTrimTrace args prj (afterMerge s0)), ?_, ?_⟩, ?_, ?_, ?_⟩
    · simp [processTrace, mergeTrace, hb]
    · simp [List.countP_append, preTrimTrace_countP_isMergeStep,
        trimTrace_countP_isMergeStep, postTrimTrace_countP_isMergeStep]
    · simp [processSample, afterMerge, hb]
    · simp [processTrace, List.filterMap_append, mergeTrace_fastqcInputs,
        preTrimTrace_fastqcInputs, trimTrace_fastqcInputs, postTrimTrace_fastqcInputs,
        afterMerge, hb]
    · simp [processTrace, List.filterMap_append, mergeTrace_bam2fastqInputs,
        preTrimTrace_bam2fastqInputs, trimTrace_bam2fastqInputs,
        postTrimTrace_bam2fastqInputs, afterMerge, hb]
  · intro p hp
    constructor
    · simp [processTrace, List.countP_append, mergeTrace, hp,
        preTrimTrace_countP_isMergeStep, trimTrace_countP_isMergeStep,
        postTrimTrace_countP_isMergeStep]
    · simp [processSample, afterMerge, hp]

/-- Witness for claim C7: on a concrete two-replicate sample the descriptor is
substituted with the merge output and the quality report reads it; on a
concrete single-file sample no merge step occurs. -/
theorem merge_runs_first_and_substitutes_input_witness :
    (processSample mkArgs mkPrj mkSample).unmappedBam = BamInput.one "merged.bam"
  ∧ (processTrace mkArgs mkPrj mkSample).filterMap Event.fastqcInput?
      = [BamInput.one "merged.bam"]
  ∧ (processTrace mkArgs mkPrj sampleOne).countP Event.isMergeStep = 0 :=
  ⟨((merge_runs_first_and_substitutes_input mkArgs mkPrj mkSample).1
      ["u1.bam", "u2.bam"] rfl).2.1,
   ((merge_runs_first_and_substitutes_input mkArgs mkPrj mkSample).1
      ["u1.bam", "u2.bam"] rfl).2.2.1,
   ((merge_runs_first_and_substitutes_input mkArgs mkPrj sampleOne).2 "u.bam" rfl).1⟩

/-- Claim C8 (confirmed): the driver leaves the sample descriptor unchanged
except for the single path substitution `sample.unmappedBam = sample.unmapped`
performed after the merge step; in particular the paired and tagmented flags
and the genome identifier are unchanged, and no path field is ever removed. -/
theorem sample_descriptor_only_substituted (args : Args) (prj : Project) (s0 : Sample) :
    (processSample args prj s0).paired = s0.paired
  ∧ (processSample args prj s0).tagmented = s0.tagmented
  ∧ (processSample args prj s0).genome = s0.genome
  ∧ (processSample args prj s0 = s0
      ∨ processSample args prj s0 = { s0 with unmappedBam := BamInput.one s0.unmapped }) := by
  rcases hb : s0.unmappedBam with p | bams
  · simp [processSample, afterMerge, hb]
  · simp [processSample, afterMerge, hb]

/-- Claim C9 (counterexample): it is not the case that the exit code on
user-initiated interruption is distinguished from both the success code and
the step-failure code. -/
theorem interrupt_exit_code_not_distinct_cex :
    ¬ (exitCode RunOutcome.success = 0
       ∧ exitCode RunOutcome.stepFailure ≠ 0
       ∧ exitCode RunOutcome.interrupted ≠ 0
       ∧ exitCode RunOutcome.interrupted ≠ exitCode RunOutcome.stepFailure) := by
  decide

/-- Claim C9 (amended): the process exits 0 on full success and with a
non-zero code both on the first unrecoverable step failure and on
user-initiated interruption, but the interruption code (`sys.exit(1)`) equals
the step-failure code rather than being distinct from it. -/
theorem exit_codes_success_zero_failure_interrupt_one :
    exitCode RunOutcome.success = 0
  ∧ exitCode RunOutcome.stepFailure ≠ 0
  ∧ exitCode RunOutcome.interrupted ≠ 0
  ∧ exitCode RunOutcome.interrupted = exitCode RunOutcome.stepFailure := by
  decide

theorem mergeTrace_cleanAddPaths (s : Sample) :
    (mergeTrace s).filterMap Event.cleanAddPath? = [] := by
  cases h : s.unmappedBam <;> simp [mergeTrace, h, Event.cleanAddPath?]

theorem preTrimTrace_cleanAddPaths (s : Sample) :
    (preTrimTrace s).filterMap Event.cleanAddPath? =
      (if s.paired then [s.fastq1, s.fastq2, s.fastqUnpaired] else [s.fastq]) := by
  cases hp : s.paired <;> simp [preTrimTrace, hp, Event.cleanAddPath?]

theorem postTrimTrace_cleanAddPaths (a : Args) (prj : Project) (s : Sample) :
    (postTrimTrace a prj s).filterMap Event.cleanAddPath? = [s.mapped] := by
  cases ht : s.tagmented <;> simp [postTrimTrace, ht, Event.cleanAddPath?]

theorem mergeTrace_countP_isTrimCmd (s : Sample) :
    (mergeTrace s).countP Event.isTrimCmd = 0 := by
  cases h : s.unmappedBam <;>
    simp [mergeTrace, h, Event.isTrimCmd, List.countP_cons]

theorem preTrimTrace_countP_isTrimCmd (s : Sample) :
    (preTrimTrace s).countP Event.isTrimCmd = 0 := by
  cases hp : s.paired <;>
    simp [preTrimTrace, hp, Event.isTrimCmd, List.countP_cons, List.countP_append]

theorem postTrimTrace_countP_isTrimCmd (a : Args) (prj : Project) (s : Sample) :
    (postTrimTrace a prj s).countP Event.isTrimCmd = 0 := by
  cases ht : s.tagmented <;>
    simp [postTrimTrace, ht, Event.isTrimCmd, List.countP_cons, List.countP_append]

/-- Claim C10 (confirmed): for a trimmer value naming neither trimmomatic nor
skewer, the driver issues no trimming command and registers no trim artifacts
for disposal (the registered disposals are exactly the fastq conversion
outputs and the mapped BAM), yet the alignment step still runs, reading the
trimmed-output paths that no step of the run produced. -/
theorem unknown_trimmer_skips_trimming (args : Args) (prj : Project) (s0 : Sample)
    (h1 : args.trimmer ≠ "trimmomatic") (h2 : args.trimmer ≠ "skewer") :
    (processTrace args prj s0).countP Event.isTrimCmd = 0
  ∧ (processTrace args prj s0).filterMap Event.cleanAddPath?
      = (if s0.paired then [s0.fastq1, s0.fastq2, s0.fastqUnpaired] else [s0.fastq])
        ++ [s0.mapped]
  ∧ (processTrace args prj s0).filterMap Event.alignInputs?
      = [((if s0.paired then s0.trimmed1 else s0.trimmed),
          (if s0.paired then some s0.trimmed2 else none))] := by
  have htrim : trimTrace args prj (afterMerge s0) = [] := by
    simp [trimTrace, h1, h2]
  refine ⟨?_, ?_, ?_⟩
  · simp [processTrace, List.countP_append, htrim, mergeTrace_countP_isTrimCmd,
      preTrimTrace_countP_isTrimCmd, postTrimTrace_countP_isTrimCmd]
  · rw [show (processTrace args prj s0).filterMap Event.cleanAddPath?
        = (mergeTrace s0).filterMap Event.cleanAddPath?
          ++ ((preTrimTrace (afterMerge s0)).filterMap Event.cleanAddPath?
              ++ ((trimTrace args prj (afterMerge s0)).filterMap Event.cleanAddPath?
                  ++ (postTrimTrace args prj (afterMerge s0)).filterMap Event.cleanAddPath?))
        from by simp [processTrace, List.filterMap_append]]
    rw [htrim, mergeTrace_cleanAddPaths, preTrimTrace_cleanAddPaths,
      postTrimTrace_cleanAddPaths]
    rcases hb : s0.unmappedBam with p | bams <;> simp [afterMerge, hb]
  · rw [processTrace_alignInputs]
    rcases hb : s0.unmappedBam with p | bams <;> simp [afterMerge, hb]

/-- Witness for claim C10 at a concrete paired-end sample with the trimmer
set to a third value. -/
theorem unknown_trimmer_skips_trimming_witness :
    (processTrace argsOther mkPrj mkSample).countP Event.isTrimCmd = 0
  ∧ (processTrace argsOther mkPrj mkSample).filterMap Event.cleanAddPath?
      = ["r1.fastq", "r2.fastq", "up.fastq", "m.bam"]
  ∧ (processTrace argsOther mkPrj mkSample).filterMap Event.alignInputs?
      = [("t1.fastq", some "t2.fastq")] :=
  unknown_trimmer_skips_trimming argsOther mkPrj mkSample (by decide) (by decide)
